import Mathlib

/-!
Shallow embedding of `src/Cantera/python/Cantera/Func.py`.

The module is a thin wrapper over two external collaborators:

* the `_cantera` C engine, reached through `func_new`, `func_newcombo`
  (and `func_value` / `func_del`, which no claim here touches); we model
  it as an append-only registry of calls, with handles drawn from a
  counter;
* the `Numeric` array library (`asarray`, `ravel`, `shape`, `transpose`),
  modelled on nested lists of exact rationals.  The wrapper performs no
  arithmetic on coefficient values - it only copies and rearranges them -
  so rationals represent Python doubles faithfully here.

Python exceptions are modelled with an error type: `CanteraError` is the
validation error the constructors raise on a bad row width (Func.py
raises the name `CanteraError`, which is in fact not imported in this
module; we model the raise site as the wrapper's own validation error,
which is what both the code and its documentation intend), `ValueError`
stands for the failures inside Numeric itself (a ragged sequence cannot
be converted to a rectangular double array, and the shape of an empty or
one-dimensional array cannot be unpacked as `n, m = cc.shape`), and
`AttributeError` is raised when `.func_id()` is looked up on an operand
that is not a `Func1` (e.g. a bare Python scalar).
-/

namespace Cantera

/-- Calls made to the `_cantera` engine: `func_new(typ, n, coeffs)` and
`func_newcombo(kind, id1, id2)`. -/
inductive EngineOp where
  | new (typ : Int) (n : Int) (coeffs : List ℚ)
  | newcombo (kind : Int) (id1 : Nat) (id2 : Nat)
deriving DecidableEq, Repr

/-- The engine state: a fresh-handle counter and the registry of calls,
each paired with the handle it returned.  The registry is append-only. -/
structure Engine where
  nextId : Nat
  log : List (Nat × EngineOp)
deriving DecidableEq, Repr

/-- The engine before any call. -/
def engine0 : Engine := ⟨0, []⟩

/-- Engine primitive `_cantera.func_new(typ, n, coeffs)`: registers a leaf
function and returns its fresh handle. -/
def func_new (typ : Int) (n : Int) (coeffs : List ℚ) (σ : Engine) : Nat × Engine :=
  (σ.nextId, ⟨σ.nextId + 1, σ.log ++ [(σ.nextId, EngineOp.new typ n coeffs)]⟩)

/-- Engine primitive `_cantera.func_newcombo(kind, id1, id2)`: registers a
combination of two existing handles and returns a fresh handle. -/
def func_newcombo (kind : Int) (id1 : Nat) (id2 : Nat) (σ : Engine) : Nat × Engine :=
  (σ.nextId, ⟨σ.nextId + 1, σ.log ++ [(σ.nextId, EngineOp.newcombo kind id1 id2)]⟩)

/-- Python exceptions that can escape the constructors in Func.py. -/
inductive PyErr where
  | CanteraError
  | ValueError
  | AttributeError
deriving DecidableEq, Repr

/-- A `Func1` wrapper object.  A leaf (created through `Func1.__init__`)
stores its arity `n`, its coefficient array `self.coeffs` and its engine
handle `self._func_id`; a combinator (`SumFunction` / `ProdFunction` /
`RatioFunction`) stores its two children `self.f1`, `self.f2` and its
handle, and has `self.n = -1` and no coefficient array. -/
inductive Func1 where
  | leaf (n : Int) (coeffs : List ℚ) (funcId : Nat)
  | combo (f1 : Func1) (f2 : Func1) (funcId : Nat)
deriving DecidableEq, Repr

/-- The attribute `self.n` (`-1` on combinators). -/
def Func1.n : Func1 → Int
  | .leaf nn _ _ => nn
  | .combo _ _ _ => -1

/-- The method `func_id()`, returning `self._func_id`. -/
def Func1.funcId : Func1 → Nat
  | .leaf _ _ i => i
  | .combo _ _ i => i

/-- A Python value appearing as the `other` operand of an overloaded
operator: an exact `float`, an `int`, or a `Func1` instance.  The source
tests `type(other) == types.FloatType`, so the distinction between float
and int scalars is observable. -/
inductive PyVal where
  | float (x : ℚ)
  | int (k : ℤ)
  | func (f : Func1)
deriving DecidableEq, Repr

/-- Looking up `.func_id()` on an operand: only a `Func1` has it; on a
bare scalar the attribute access raises `AttributeError`. -/
def PyVal.funcIdAttr : PyVal → Except PyErr Nat
  | .func f => .ok f.funcId
  | _ => .error PyErr.AttributeError

/-- Func1.__init__(self, typ, n, coeffs): stores `n` and the coefficient
array and registers the function with the engine. -/
def Func1.init (typ : Int) (n : Int) (coeffs : List ℚ) (σ : Engine) : Func1 × Engine :=
  let (i, σ2) := func_new typ n coeffs σ
  (Func1.leaf n coeffs i, σ2)

/-- Polynomial(coeffs) = Func1.__init__(self, 2, len(coeffs)-1, coeffs). -/
def Polynomial (coeffs : List ℚ) (σ : Engine) : Func1 × Engine :=
  Func1.init 2 ((coeffs.length : Int) - 1) coeffs σ

/-- Const(value) = Polynomial([value]). -/
def Const (value : ℚ) (σ : Engine) : Func1 × Engine :=
  Polynomial [value] σ

/-- Result of `asarray(c, 'd')` followed by `n, m = cc.shape`: a nonempty
rectangular sequence of rows has shape `(n, m)`; an empty sequence becomes
a one-dimensional array whose shape cannot be unpacked into two values,
and a ragged sequence cannot be converted to a rectangular double array
at all.  Both failure modes are collapsed into `none` (a Numeric-level
error, before the wrapper's own validation). -/
def shape2d : List (List ℚ) → Option (Nat × Nat)
  | [] => none
  | r :: rs => if rs.all fun row => row.length == r.length then some (rs.length + 1, r.length) else none

/-- Element assignment `cc[i, j] = v` on a 2-D array. -/
def set2d (cc : List (List ℚ)) (i j : Nat) (v : ℚ) : List (List ℚ) :=
  cc.set i ((cc.getD i []).set j v)

/-- Numeric `transpose` of a rectangular 2-D array with `m` columns. -/
def transposeRect (m : Nat) (cc : List (List ℚ)) : List (List ℚ) :=
  (List.range m).map fun j => cc.map fun r => r.getD j 0

/-- Numeric `ravel`: row-major flattening of a 2-D array. -/
def ravel (cc : List (List ℚ)) : List ℚ :=
  cc.flatten

/-- Fourier.__init__(self, omega, c): converts `c` to a double array,
unpacks its shape as `n, m`, raises on `m <> 2`, overwrites `cc[0, 1]`
with `omega`, and registers the flattened transpose as a kind-1 leaf of
arity `n - 1`. -/
def Fourier (omega : ℚ) (c : List (List ℚ)) (σ : Engine) :
    Except PyErr Func1 × Engine :=
  match shape2d c with
  | none => (.error PyErr.ValueError, σ)
  | some (nn, m) =>
    if m ≠ 2 then (.error PyErr.CanteraError, σ)
    else
      let cc := set2d c 0 1 omega
      let (f, σ2) := Func1.init 1 ((nn : Int) - 1) (ravel (transposeRect m cc)) σ
      (.ok f, σ2)

/-- Arrhenius.__init__(self, c): converts `c` to a double array, unpacks
its shape as `n, m`, raises on `m <> 3`, and registers the row-major
flattening as a kind-3 leaf of arity `n`. -/
def Arrhenius (c : List (List ℚ)) (σ : Engine) :
    Except PyErr Func1 × Engine :=
  match shape2d c with
  | none => (.error PyErr.ValueError, σ)
  | some (nn, m) =>
    if m ≠ 3 then (.error PyErr.CanteraError, σ)
    else
      let (f, σ2) := Func1.init 3 (nn : Int) (ravel c) σ
      (.ok f, σ2)

/-- SumFunction(f1, f2): registers `func_newcombo(20, f1.func_id(),
f2.func_id())` and stores the two children.  `f1.func_id()` is evaluated
before `f2.func_id()`; looking the method up on a non-`Func1` operand
raises `AttributeError` before any engine call. -/
def SumFunction (f1 f2 : PyVal) (σ : Engine) : Except PyErr Func1 × Engine :=
  match f1 with
  | .func g1 =>
    match f2 with
    | .func g2 =>
      let (i, σ2) := func_newcombo 20 g1.funcId g2.funcId σ
      (.ok (Func1.combo g1 g2 i), σ2)
    | _ => (.error PyErr.AttributeError, σ)
  | _ => (.error PyErr.AttributeError, σ)

/-- ProdFunction(f1, f2): as `SumFunction`, with combination kind 30. -/
def ProdFunction (f1 f2 : PyVal) (σ : Engine) : Except PyErr Func1 × Engine :=
  match f1 with
  | .func g1 =>
    match f2 with
    | .func g2 =>
      let (i, σ2) := func_newcombo 30 g1.funcId g2.funcId σ
      (.ok (Func1.combo g1 g2 i), σ2)
    | _ => (.error PyErr.AttributeError, σ)
  | _ => (.error PyErr.AttributeError, σ)

/-- RatioFunction(f1, f2): as `SumFunction`, with combination kind 40. -/
def RatioFunction (f1 f2 : PyVal) (σ : Engine) : Except PyErr Func1 × Engine :=
  match f1 with
  | .func g1 =>
    match f2 with
    | .func g2 =>
      let (i, σ2) := func_newcombo 40 g1.funcId g2.funcId σ
      (.ok (Func1.combo g1 g2 i), σ2)
    | _ => (.error PyErr.AttributeError, σ)
  | _ => (.error PyErr.AttributeError, σ)

/-- Func1.__add__(self, other): a `float` operand (and only a `float`:
the test is `type(other) == types.FloatType`) is promoted with `Const`
before `SumFunction(self, Const(other))`; anything else is passed to
`SumFunction(self, other)` unchanged. -/
def Func1.add (self : Func1) (other : PyVal) (σ : Engine) :
    Except PyErr Func1 × Engine :=
  match other with
  | .float x =>
    let (c, σ2) := Const x σ
    SumFunction (.func self) (.func c) σ2
  | _ => SumFunction (.func self) other σ

/-- Func1.__radd__(self, other): the float promotion of `__add__`, with
the operands handed to `SumFunction` in the order (other, self). -/
def Func1.radd (self : Func1) (other : PyVal) (σ : Engine) :
    Except PyErr Func1 × Engine :=
  match other with
  | .float x =>
    let (c, σ2) := Const x σ
    SumFunction (.func c) (.func self) σ2
  | _ => SumFunction other (.func self) σ

/-- Func1.__mul__(self, other) = ProdFunction(self, other): no scalar
promotion of any kind. -/
def Func1.mul (self : Func1) (other : PyVal) (σ : Engine) :
    Except PyErr Func1 × Engine :=
  ProdFunction (.func self) other σ

/-- Func1.__rmul__(self, other) = ProdFunction(other, self): no scalar
promotion. -/
def Func1.rmul (self : Func1) (other : PyVal) (σ : Engine) :
    Except PyErr Func1 × Engine :=
  ProdFunction other (.func self) σ

/-- Func1.__div__(self, other) = RatioFunction(self, other): no scalar
promotion. -/
def Func1.div (self : Func1) (other : PyVal) (σ : Engine) :
    Except PyErr Func1 × Engine :=
  RatioFunction (.func self) other σ

/-- Func1.__rdiv__(self, other) = RatioFunction(other, self): no scalar
promotion. -/
def Func1.rdiv (self : Func1) (other : PyVal) (σ : Engine) :
    Except PyErr Func1 × Engine :=
  RatioFunction other (.func self) σ

/-- Structural equivalence of wrapper objects: equality of everything
except the engine handles. -/
def structEq : Func1 → Func1 → Bool
  | .leaf n c _, .leaf n2 c2 _ => n == n2 && c == c2
  | .combo a b _, .combo a2 b2 _ => structEq a a2 && structEq b b2
  | _, _ => false

/-- The integer kind code an engine call carries. -/
def EngineOp.kind : EngineOp → Int
  | .new typ _ _ => typ
  | .newcombo k _ _ => k

/-- The kind code of the most recent engine registration. -/
def lastKind (σ : Engine) : Option Int :=
  σ.log.getLast?.map fun e => e.2.kind

/-- A store of Numeric double arrays owned by the caller, addressed by
references (indices).  It makes the aliasing behaviour of `asarray`
observable. -/
structure ArrayStore where
  arrays : List (List (List ℚ))
deriving DecidableEq, Repr

/-- The argument a caller can pass as the term sequence `c`: either a
fresh Python sequence of tuples (which `asarray` copies into a new
array), or a reference to a double array the caller already owns (which
`asarray(c, 'd')`, documented as `array(c, 'd', copy=0)`, returns
itself, without copying). -/
inductive SeqArg where
  | fresh (c : List (List ℚ))
  | darray (r : Nat)
deriving DecidableEq, Repr

/-- Fourier.__init__ tracked at the level of caller-visible array
storage.  When the argument is already a double array, `cc` aliases the
caller's array, so the assignment `cc[0, 1] = omega` writes through to
it; when the argument is a fresh sequence, the write lands in the private
copy `asarray` made.  Everything else is exactly `Fourier`. -/
def FourierSt (omega : ℚ) (arg : SeqArg) (st : ArrayStore) (σ : Engine) :
    (Except PyErr Func1 × Engine) × ArrayStore :=
  let cc0 := match arg with
    | .fresh c => c
    | .darray r => st.arrays.getD r []
  match shape2d cc0 with
  | none => ((.error PyErr.ValueError, σ), st)
  | some (nn, m) =>
    if m ≠ 2 then ((.error PyErr.CanteraError, σ), st)
    else
      let cc := set2d cc0 0 1 omega
      let st2 := match arg with
        | .fresh _ => st
        | .darray r => ArrayStore.mk (st.arrays.set r cc)
      let (f, σ2) := Func1.init 1 ((nn : Int) - 1) (ravel (transposeRect m cc)) σ
      ((.ok f, σ2), st2)

lemma shape2d_eq (m : Nat) (r : List ℚ) (rs : List (List ℚ)) (hr : r.length = m)
    (hrs : ∀ row ∈ rs, row.length = m) : shape2d (r :: rs) = some (rs.length + 1, m) := by
  have hall : rs.all (fun row => row.length == r.length) = true := by
    simp only [List.all_eq_true, beq_iff_eq]
    intro row hrow
    rw [hrs row hrow, hr]
  simp [shape2d, hall, hr]
  exact hrs

lemma Fourier_cons (ω a b : ℚ) (rs : List (List ℚ)) (σ : Engine)
    (hrs : ∀ row ∈ rs, row.length = 2) :
    Fourier ω ([a, b] :: rs) σ =
      (.ok (Func1.leaf (rs.length : Int)
          ((a :: rs.map fun r => r.getD 0 0) ++ ω :: rs.map fun r => r.getD 1 0)
          σ.nextId),
       ⟨σ.nextId + 1,
        σ.log ++ [(σ.nextId, EngineOp.new 1 (rs.length : Int)
          ((a :: rs.map fun r => r.getD 0 0) ++ ω :: rs.map fun r => r.getD 1 0))]⟩) := by
  have hsh : shape2d ([a, b] :: rs) = some (rs.length + 1, 2) := shape2d_eq 2 [a, b] rs rfl hrs
  unfold Fourier
  rw [hsh]
  simp [set2d, transposeRect, ravel, Func1.init, func_new, List.range_succ]

lemma Arrhenius_eq (c : List (List ℚ)) (σ : Engine) (hne : c ≠ [])
    (hrs : ∀ row ∈ c, row.length = 3) :
    Arrhenius c σ =
      (.ok (Func1.leaf (c.length : Int) c.flatten σ.nextId),
       ⟨σ.nextId + 1,
        σ.log ++ [(σ.nextId, EngineOp.new 3 (c.length : Int) c.flatten)]⟩) := by
  obtain ⟨r, rs, rfl⟩ := List.exists_cons_of_ne_nil hne
  have hsh : shape2d (r :: rs) = some (rs.length + 1, 3) :=
    shape2d_eq 3 r rs (hrs r (by simp)) (fun row hrow => hrs row (by simp [hrow]))
  unfold Arrhenius
  rw [hsh]
  simp [ravel, Func1.init, func_new]

lemma lastKind_mk (k : Nat) (l : List (Nat × EngineOp)) (e : Nat × EngineOp) :
    lastKind ⟨k, l ++ [e]⟩ = some e.2.kind := by
  simp [lastKind, List.getLast?_concat]

/-- Claim C3: for every Fourier construction with n 2-tuple terms, the
coefficient sequence registered with the engine is the
transpose-then-flatten layout: the a-column, then omega in place of the
first b, then the remaining b-column. -/
theorem C3_fourier_layout (w : ℚ) (c : List (List ℚ)) (σ : Engine)
    (hne : c ≠ []) (h2 : ∀ r ∈ c, r.length = 2) :
    Fourier w c σ =
      (.ok (Func1.leaf ((c.length : Int) - 1)
          ((c.map fun r => r.getD 0 0) ++ w :: (c.map fun r => r.getD 1 0).tail)
          σ.nextId),
       ⟨σ.nextId + 1,
        σ.log ++ [(σ.nextId, EngineOp.new 1 ((c.length : Int) - 1)
          ((c.map fun r => r.getD 0 0) ++ w :: (c.map fun r => r.getD 1 0).tail))]⟩) := by
  obtain ⟨r, rs, rfl⟩ := List.exists_cons_of_ne_nil hne
  obtain ⟨a, b, rfl⟩ := List.length_eq_two.mp (h2 r (by simp))
  rw [Fourier_cons w a b rs σ (fun row hrow => h2 row (by simp [hrow]))]
  simp

/-- Claim C3 witness: Fourier(2.0, [(5, 7), (11, 13)]) registers the
coefficient sequence [5, 11, 2, 13]. -/
theorem C3_fourier_layout_witness :
    Fourier 2 [[5, 7], [11, 13]] engine0 =
      (.ok (Func1.leaf 1 [5, 11, 2, 13] 0),
       ⟨1, [(0, EngineOp.new 1 1 [5, 11, 2, 13])]⟩) := by
  exact C3_fourier_layout 2 [[5, 7], [11, 13]] engine0 (by decide) (by decide)

/-- Claim C5: add(F, G) and radd(G, F) - the two entry points reached for
the expression F + G - both yield a Sum combinator whose children are
(F, G) in that left/right order, registered with the same engine call. -/
theorem C5_add_radd_order (F G : Func1) (σ : Engine) :
    Func1.add F (.func G) σ =
      (.ok (Func1.combo F G σ.nextId),
       ⟨σ.nextId + 1, σ.log ++ [(σ.nextId, EngineOp.newcombo 20 F.funcId G.funcId)]⟩) ∧
    Func1.radd G (.func F) σ =
      (.ok (Func1.combo F G σ.nextId),
       ⟨σ.nextId + 1, σ.log ++ [(σ.nextId, EngineOp.newcombo 20 F.funcId G.funcId)]⟩) ∧
    Func1.add F (.func G) σ = Func1.radd G (.func F) σ :=
  ⟨rfl, rfl, rfl⟩

/-- Claim C9: each algebraic operator on Function operands returns a new
combinator whose stored children are exactly the operand objects (type
tag, arity, coefficients and handle untouched), and its only engine
effect is appending one combination call to the registry. -/
theorem C9_operators_pure (F G : Func1) (σ : Engine) :
    Func1.add F (.func G) σ =
      (.ok (Func1.combo F G σ.nextId),
       ⟨σ.nextId + 1, σ.log ++ [(σ.nextId, EngineOp.newcombo 20 F.funcId G.funcId)]⟩) ∧
    Func1.radd F (.func G) σ =
      (.ok (Func1.combo G F σ.nextId),
       ⟨σ.nextId + 1, σ.log ++ [(σ.nextId, EngineOp.newcombo 20 G.funcId F.funcId)]⟩) ∧
    Func1.mul F (.func G) σ =
      (.ok (Func1.combo F G σ.nextId),
       ⟨σ.nextId + 1, σ.log ++ [(σ.nextId, EngineOp.newcombo 30 F.funcId G.funcId)]⟩) ∧
    Func1.rmul F (.func G) σ =
      (.ok (Func1.combo G F σ.nextId),
       ⟨σ.nextId + 1, σ.log ++ [(σ.nextId, EngineOp.newcombo 30 G.funcId F.funcId)]⟩) ∧
    Func1.div F (.func G) σ =
      (.ok (Func1.combo F G σ.nextId),
       ⟨σ.nextId + 1, σ.log ++ [(σ.nextId, EngineOp.newcombo 40 F.funcId G.funcId)]⟩) ∧
    Func1.rdiv F (.func G) σ =
      (.ok (Func1.combo G F σ.nextId),
       ⟨σ.nextId + 1, σ.log ++ [(σ.nextId, EngineOp.newcombo 40 G.funcId F.funcId)]⟩) :=
  ⟨rfl, rfl, rfl, rfl, rfl, rfl⟩

/-- Claim C7: a Polynomial built from a coefficient sequence of length
L >= 1 has arity L - 1. -/
theorem C7_polynomial_arity (coeffs : List ℚ) (σ : Engine)
    (_h : 1 ≤ coeffs.length) :
    ((Polynomial coeffs σ).1).n = (coeffs.length : Int) - 1 := rfl

/-- Claim C7 witness: a three-coefficient polynomial has arity 2. -/
theorem C7_polynomial_arity_witness :
    ((Polynomial [1, 2, 3] engine0).1).n = 2 :=
  C7_polynomial_arity [1, 2, 3] engine0 (by decide)

/-- Claim C1 counterexample: with F the constant polynomial [1] and 3.0 a
bare float scalar, F * 3.0 raises AttributeError (there is no promotion
of the scalar and no Product combinator is built), and the same holds for
rmultiply, divide and rdivide; the claim that these operations promote
the scalar as add does is therefore false. -/
theorem C1_counterexample :
    Func1.mul (Polynomial [1] engine0).1 (.float 3) (Polynomial [1] engine0).2 =
      (.error PyErr.AttributeError, (Polynomial [1] engine0).2) ∧
    Func1.rmul (Polynomial [1] engine0).1 (.float 3) (Polynomial [1] engine0).2 =
      (.error PyErr.AttributeError, (Polynomial [1] engine0).2) ∧
    Func1.div (Polynomial [1] engine0).1 (.float 3) (Polynomial [1] engine0).2 =
      (.error PyErr.AttributeError, (Polynomial [1] engine0).2) ∧
    Func1.rdiv (Polynomial [1] engine0).1 (.float 3) (Polynomial [1] engine0).2 =
      (.error PyErr.AttributeError, (Polynomial [1] engine0).2) :=
  ⟨rfl, rfl, rfl, rfl⟩

/-- Claim C1 (amended): only add and radd promote a bare float scalar to
a constant leaf before building the Sum combinator; multiply, rmultiply,
divide and rdivide pass the operand through unchanged, so a bare float
operand fails with AttributeError when its func_id is looked up, before
any engine call. -/
theorem C1_amended (F : Func1) (s : ℚ) (σ : Engine) :
    Func1.mul F (.float s) σ = (.error PyErr.AttributeError, σ) ∧
    Func1.rmul F (.float s) σ = (.error PyErr.AttributeError, σ) ∧
    Func1.div F (.float s) σ = (.error PyErr.AttributeError, σ) ∧
    Func1.rdiv F (.float s) σ = (.error PyErr.AttributeError, σ) ∧
    (Func1.add F (.float s) σ).1 =
      .ok (Func1.combo F (Func1.leaf 0 [s] σ.nextId) (σ.nextId + 1)) ∧
    (Func1.radd F (.float s) σ).1 =
      .ok (Func1.combo (Func1.leaf 0 [s] σ.nextId) F (σ.nextId + 1)) :=
  ⟨rfl, rfl, rfl, rfl, rfl, rfl⟩

/-- Claim C4 counterexample: 3 is a bare numeric scalar, but add(F, 3)
with an int scalar raises AttributeError instead of promoting it - the
promotion test is exactly type(other) == types.FloatType. -/
theorem C4_counterexample :
    Func1.add (Polynomial [1] engine0).1 (.int 3) (Polynomial [1] engine0).2 =
      (.error PyErr.AttributeError, (Polynomial [1] engine0).2) := rfl

/-- Claim C4 (amended): for every bare float scalar s, add(F, s) builds a
Sum whose right child is structurally equivalent to Polynomial([s]) - a
constant leaf of arity 0 with sole coefficient s; an int scalar is not
promoted and raises AttributeError. -/
theorem C4_amended (F : Func1) (s : ℚ) (k : ℤ) (σ σ₂ : Engine) :
    Func1.add F (.float s) σ =
      (.ok (Func1.combo F (Func1.leaf 0 [s] σ.nextId) (σ.nextId + 1)),
       ⟨σ.nextId + 2,
        σ.log ++ [(σ.nextId, EngineOp.new 2 0 [s]),
          (σ.nextId + 1, EngineOp.newcombo 20 F.funcId σ.nextId)]⟩) ∧
    structEq (Func1.leaf 0 [s] σ.nextId) (Polynomial [s] σ₂).1 = true ∧
    Func1.add F (.int k) σ = (.error PyErr.AttributeError, σ) := by
  refine ⟨?_, ?_, rfl⟩
  · simp [Func1.add, Const, Polynomial, Func1.init, func_new, SumFunction, func_newcombo, Func1.funcId]
  · simp [structEq, Polynomial, Func1.init, func_new]

/-- Claim C2 counterexample: the empty term sequence - in which every
term is vacuously a 2-tuple - does not construct successfully (the shape
of the resulting 1-D array cannot be unpacked as n, m), and the ragged
sequence [(1, 2), (1, 2, 3)], which contains a non-2-tuple term, fails
inside the Numeric conversion, not with the wrapper's InvalidCoefficients
error. -/
theorem C2_counterexample :
    Fourier 2 [] engine0 = (.error PyErr.ValueError, engine0) ∧
    Fourier 2 [[1, 2], [1, 2, 3]] engine0 = (.error PyErr.ValueError, engine0) ∧
    PyErr.ValueError ≠ PyErr.CanteraError :=
  ⟨rfl, rfl, by decide⟩

/-- Claim C2 (amended): for every nonempty uniform Fourier term sequence,
construction succeeds when the terms are 2-tuples, and fails with the
wrapper's validation error (InvalidCoefficients), raised with no engine
call made, when the terms are k-tuples with k different from 2. -/
theorem C2_amended (w : ℚ) (c : List (List ℚ)) (σ : Engine) (m : Nat)
    (hne : c ≠ []) (hm : ∀ r ∈ c, r.length = m) :
    (m = 2 → (Fourier w c σ).1.isOk = true) ∧
    (m ≠ 2 → Fourier w c σ = (.error PyErr.CanteraError, σ)) := by
  obtain ⟨r, rs, rfl⟩ := List.exists_cons_of_ne_nil hne
  have hsh : shape2d (r :: rs) = some (rs.length + 1, m) :=
    shape2d_eq m r rs (hm r (by simp)) (fun row hrow => hm row (by simp [hrow]))
  constructor
  · intro hm2
    subst hm2
    obtain ⟨a, b, rfl⟩ := List.length_eq_two.mp (hm r (by simp))
    rw [Fourier_cons w a b rs σ (fun row hrow => hm row (by simp [hrow]))]
    rfl
  · intro hm2
    unfold Fourier
    rw [hsh]
    simp [hm2]

/-- Claim C2 witness: a single 2-tuple term constructs successfully, and
a uniform 3-tuple sequence fails with the validation error, engine
untouched. -/
theorem C2_amended_witness :
    ((2 : Nat) = 2 → (Fourier 2 [[5, 7]] engine0).1.isOk = true) ∧
    ((3 : Nat) ≠ 2 → Fourier 2 [[5, 7, 9]] engine0 = (.error PyErr.CanteraError, engine0)) :=
  ⟨(C2_amended 2 [[5, 7]] engine0 2 (by decide) (by decide)).1,
   (C2_amended 2 [[5, 7, 9]] engine0 3 (by decide) (by decide)).2⟩

/-- Claim C6 counterexample: the empty Arrhenius term sequence - in which
every term is vacuously a 3-tuple - does not construct successfully, and
the ragged sequence [(1, 2, 3), (4, 5)], which contains a non-3-tuple
term, fails inside the Numeric conversion rather than with the wrapper's
InvalidCoefficients error. -/
theorem C6_counterexample :
    Arrhenius [] engine0 = (.error PyErr.ValueError, engine0) ∧
    Arrhenius [[1, 2, 3], [4, 5]] engine0 = (.error PyErr.ValueError, engine0) ∧
    PyErr.ValueError ≠ PyErr.CanteraError :=
  ⟨rfl, rfl, by decide⟩

/-- Claim C6 (amended): for every nonempty uniform Arrhenius term
sequence, construction succeeds when the terms are 3-tuples and registers
the row-major flattening (A0, b0, E0, A1, b1, E1, ...) with the engine;
when the terms are k-tuples with k different from 3 it fails with the
wrapper's validation error (InvalidCoefficients), with no engine call
made. -/
theorem C6_amended (c : List (List ℚ)) (σ : Engine) (m : Nat)
    (hne : c ≠ []) (hm : ∀ r ∈ c, r.length = m) :
    (m = 3 → Arrhenius c σ =
      (.ok (Func1.leaf (c.length : Int) c.flatten σ.nextId),
       ⟨σ.nextId + 1, σ.log ++ [(σ.nextId, EngineOp.new 3 (c.length : Int) c.flatten)]⟩)) ∧
    (m ≠ 3 → Arrhenius c σ = (.error PyErr.CanteraError, σ)) := by
  constructor
  · intro hm3
    subst hm3
    exact Arrhenius_eq c σ hne hm
  · intro hm3
    obtain ⟨r, rs, rfl⟩ := List.exists_cons_of_ne_nil hne
    have hsh : shape2d (r :: rs) = some (rs.length + 1, m) :=
      shape2d_eq m r rs (hm r (by simp)) (fun row hrow => hm row (by simp [hrow]))
    unfold Arrhenius
    rw [hsh]
    simp [hm3]

/-- Claim C6 witness: two 3-tuple terms register [1, 2, 3, 4, 5, 6], and
a 2-tuple term fails with the validation error, engine untouched. -/
theorem C6_amended_witness :
    ((3 : Nat) = 3 → Arrhenius [[1, 2, 3], [4, 5, 6]] engine0 =
      (.ok (Func1.leaf 2 [1, 2, 3, 4, 5, 6] 0),
       ⟨1, [(0, EngineOp.new 3 2 [1, 2, 3, 4, 5, 6])]⟩)) ∧
    ((2 : Nat) ≠ 3 → Arrhenius [[1, 2]] engine0 = (.error PyErr.CanteraError, engine0)) :=
  ⟨(C6_amended [[1, 2, 3], [4, 5, 6]] engine0 3 (by decide) (by decide)).1,
   (C6_amended [[1, 2]] engine0 2 (by decide) (by decide)).2⟩

/-- Claim C8: the constructors pass exactly these kind codes to the
engine: Polynomial 2, Fourier 1, Arrhenius 3, and the combinators Sum 20,
Product 30, Ratio 40, through every operator entry point. -/
theorem C8_kind_codes (coeffs : List ℚ) (w : ℚ) (cf ca : List (List ℚ))
    (F G : Func1) (σ : Engine)
    (hfne : cf ≠ []) (hf : ∀ r ∈ cf, r.length = 2)
    (hane : ca ≠ []) (ha : ∀ r ∈ ca, r.length = 3) :
    lastKind (Polynomial coeffs σ).2 = some 2 ∧
    lastKind (Fourier w cf σ).2 = some 1 ∧
    lastKind (Arrhenius ca σ).2 = some 3 ∧
    lastKind (Func1.add F (.func G) σ).2 = some 20 ∧
    lastKind (Func1.radd F (.func G) σ).2 = some 20 ∧
    lastKind (Func1.mul F (.func G) σ).2 = some 30 ∧
    lastKind (Func1.rmul F (.func G) σ).2 = some 30 ∧
    lastKind (Func1.div F (.func G) σ).2 = some 40 ∧
    lastKind (Func1.rdiv F (.func G) σ).2 = some 40 := by
  obtain ⟨r, rs, rfl⟩ := List.exists_cons_of_ne_nil hfne
  obtain ⟨a, b, rfl⟩ := List.length_eq_two.mp (hf r (by simp))
  refine ⟨lastKind_mk _ _ _, ?_, ?_, lastKind_mk _ _ _, lastKind_mk _ _ _,
    lastKind_mk _ _ _, lastKind_mk _ _ _, lastKind_mk _ _ _, lastKind_mk _ _ _⟩
  · rw [Fourier_cons w a b rs σ (fun row hrow => hf row (by simp [hrow]))]
    exact lastKind_mk _ _ _
  · rw [Arrhenius_eq ca σ hane ha]
    exact lastKind_mk _ _ _

/-- Claim C8 witness: the six codes at concrete inputs. -/
theorem C8_kind_codes_witness :
    lastKind (Polynomial [1] engine0).2 = some 2 ∧
    lastKind (Fourier 2 [[5, 7]] engine0).2 = some 1 ∧
    lastKind (Arrhenius [[1, 2, 3]] engine0).2 = some 3 ∧
    lastKind (Func1.add (Func1.leaf 0 [1] 0) (.func (Func1.leaf 0 [2] 1)) engine0).2 = some 20 ∧
    lastKind (Func1.radd (Func1.leaf 0 [1] 0) (.func (Func1.leaf 0 [2] 1)) engine0).2 = some 20 ∧
    lastKind (Func1.mul (Func1.leaf 0 [1] 0) (.func (Func1.leaf 0 [2] 1)) engine0).2 = some 30 ∧
    lastKind (Func1.rmul (Func1.leaf 0 [1] 0) (.func (Func1.leaf 0 [2] 1)) engine0).2 = some 30 ∧
    lastKind (Func1.div (Func1.leaf 0 [1] 0) (.func (Func1.leaf 0 [2] 1)) engine0).2 = some 40 ∧
    lastKind (Func1.rdiv (Func1.leaf 0 [1] 0) (.func (Func1.leaf 0 [2] 1)) engine0).2 = some 40 :=
  C8_kind_codes [1] 2 [[5, 7]] [[1, 2, 3]] (Func1.leaf 0 [1] 0) (Func1.leaf 0 [2] 1)
    engine0 (by decide) (by decide) (by decide) (by decide)

/-- Claim C10: when the caller's argument is already a double array,
Fourier construction writes omega through the alias asarray returns, so
the caller's own array has its first term's second element overwritten
with omega once construction succeeds. -/
theorem C10_fourier_aliasing (w a b : ℚ) (rest : List (List ℚ))
    (st : ArrayStore) (r : Nat) (σ : Engine)
    (hlen : r < st.arrays.length)
    (hr : st.arrays.getD r [] = [a, b] :: rest)
    (hrest : ∀ row ∈ rest, row.length = 2) :
    ((FourierSt w (.darray r) st σ).1.1).isOk = true ∧
    (FourierSt w (.darray r) st σ).2 =
      ArrayStore.mk (st.arrays.set r ([a, w] :: rest)) ∧
    ((FourierSt w (.darray r) st σ).2).arrays.getD r [] = [a, w] :: rest := by
  have hr2 : st.arrays[r]?.getD [] = [a, b] :: rest := by
    simpa [List.getD_eq_getElem?_getD] using hr
  have hsh2 : shape2d ([a, b] :: rest) = some (rest.length + 1, 2) :=
    shape2d_eq 2 [a, b] rest rfl hrest
  refine ⟨?_, ?_, ?_⟩ <;>
    simp [FourierSt, hr2, hsh2, set2d, Func1.init, func_new, Except.isOk, Except.toBool,
      List.getD_eq_getElem?_getD, List.getElem?_set_eq_of_lt _ hlen]

/-- Claim C10 witness: constructing Fourier(2.0, A) on the caller-owned
array A = [[5, 7], [11, 13]] succeeds and leaves A = [[5, 2], [11, 13]]:
the caller's array was mutated. -/
theorem C10_fourier_aliasing_witness :
    ((FourierSt 2 (.darray 0) (ArrayStore.mk [[[5, 7], [11, 13]]]) engine0).1.1).isOk = true ∧
    (FourierSt 2 (.darray 0) (ArrayStore.mk [[[5, 7], [11, 13]]]) engine0).2 =
      ArrayStore.mk [[[5, 2], [11, 13]]] ∧
    ((FourierSt 2 (.darray 0) (ArrayStore.mk [[[5, 7], [11, 13]]]) engine0).2).arrays.getD 0 [] =
      [[5, 2], [11, 13]] :=
  C10_fourier_aliasing 2 5 7 [[11, 13]] (ArrayStore.mk [[[5, 7], [11, 13]]]) 0 engine0
    (by decide) (by decide) (by decide)

end Cantera
